import Mathlib

/-!
Shallow embedding of the request-processing core of the agent
(src/lib/src/request_processor.cc, namespace CthunAgent).

Modelling conventions:

* Every effectful operation is embedded as a pure function that returns the
  ordered list of externally observable events it performs (file writes,
  directory creation, outbound messages, thread spawn, completion-flag set)
  together with its result.  C++ exceptions become `Except` / `Option`
  values: a `some e` / `.error e` component means the exception `e`
  escaped that function uncaught.
* The environment `Env` packages the external collaborators the code calls
  (filesystem success oracles, the UUID generator, the configured spool
  directory, the module execution outcome, thread-spawn success, and the
  elapsed-seconds reading of the timer).  The connector's `send` is modelled
  as always producing its attempt event: in the source every reply helper
  catches `connection_error` internally and never rethrows, so a transport
  failure is invisible to callers and to the event order.
* The non-blocking task of `nonBlockingActionTask` runs on its own thread.
  A dispatch result therefore carries the dispatch thread's events plus,
  separately, the spawned task's events; the set of whole-program traces is
  the set of interleavings of the two in which every task event follows the
  spawn (relation `Interleave` / predicate `GlobalTrace`).
* Machine integers do not occur in the modelled code; the timer reading is
  a natural number of seconds.
-/

namespace CthunAgent

/-- A JSON-object document restricted to what the core manipulates: an
ordered list of fields with string values (the status document only ever
receives string fields; result payloads are carried opaquely).  `set`
replaces the value of an existing key in place or appends a new field, as
the `DataContainer::set` of the source does. -/
abbrev Doc := List (String × String)

def Doc.empty : Doc := []

def Doc.set : Doc → String → String → Doc
  | [], k, v => [(k, v)]
  | p :: rest, k, v => if p.1 = k then (k, v) :: rest else p :: Doc.set rest k v

def Doc.get? : Doc → String → Option String
  | [], _ => none
  | p :: rest, k => if p.1 = k then some p.2 else Doc.get? rest k

/-- Serialized form of a document, used where the source calls
`DataContainer::toString` before writing a file.  The exact rendering is
irrelevant to every claim; only which document is serialized matters. -/
def Doc.toString (d : Doc) : String :=
  String.intercalate ", " (d.map (fun p => p.1 ++ ": " ++ p.2))

/-- `RequestType` of the source: blocking vs non-blocking dispatch. -/
inductive RequestType
  | Blocking
  | NonBlocking
  deriving DecidableEq, Repr

/-- `ActionOutcome::Type` of the source (action_outcome.hpp). -/
inductive ActionOutcomeType
  | External
  | Internal
  deriving DecidableEq, Repr

/-- `ActionOutcome`: captured stdout/stderr text for shelled-out modules,
or a structured results document for in-process modules. -/
structure ActionOutcome where
  type : ActionOutcomeType
  stdout : String
  stderr : String
  results : Doc
  deriving DecidableEq, Repr

/-- The value of the default-constructed `ActionOutcome outcome {}` in
`nonBlockingActionTask`.  Its variant tag is immaterial: the default
outcome is only ever consumed by `ResultsStorage::write` under a non-empty
execution error, a branch that never inspects the outcome. -/
def ActionOutcome.empty : ActionOutcome :=
  { type := ActionOutcomeType.External, stdout := "", stderr := "",
    results := Doc.empty }

/-- `ActionRequest`: the parsed request reaching the core.  `notifyOutcome`
is the boolean `notify_outcome` entry of the parsed data chunk; `debug` is
the list of (well-formed) debug chunks of `parsedChunks`. -/
structure ActionRequest where
  id : String
  transactionId : String
  sender : String
  module : String
  action : String
  paramsTxt : String
  requestType : RequestType
  notifyOutcome : Bool
  debug : List Doc
  deriving DecidableEq, Repr

/-- The exception taxonomy of the modelled code paths.
`requestProcessingError` — modelled from the spec: the class
`request_processing_error` is declared in a header outside the provided
source; the spec states a directory-creation failure is "caught by the
same top-level handler" as `request_error`, so it is treated as a
request-error kind below. -/
inductive AgentError
  | requestError (msg : String)
  | requestProcessingError (msg : String)
  | fileError (msg : String)
  deriving DecidableEq, Repr

/-- `e.what()` of the modelled exception. -/
def AgentError.what : AgentError → String
  | .requestError m => m
  | .requestProcessingError m => m
  | .fileError m => m

/-- Whether the top-level `catch (request_error&)` of
`RequestProcessor::processRequest` catches this exception (see the note on
`AgentError.requestProcessingError`). -/
def AgentError.isRequestKind : AgentError → Bool
  | .requestError _ => true
  | .requestProcessingError _ => true
  | .fileError _ => false

/-- Externally observable events, in the order the code performs them. -/
inductive Event
  | writeFile (path content : String)
  | createDir (path : String)
  | spawnTask
  | setDone
  | sendRPCError (endpoints : List String) (transaction_id id description : String)
  | sendBlocking (endpoints : List String) (transaction_id : String)
      (results : Doc) (debug : List Doc)
  | sendNonBlocking (endpoints : List String) (transaction_id job_id : String)
      (results : Doc)
  | sendProvisional (endpoints : List String) (transaction_id job_id : String)
      (success : Bool) (error : Option String) (debug : List Doc)
  deriving DecidableEq, Repr

def Event.isProvisional : Event → Bool
  | .sendProvisional _ _ _ _ _ _ => true
  | _ => false

def Event.isRPCError : Event → Bool
  | .sendRPCError _ _ _ _ => true
  | _ => false

def Event.isNonBlockingResp : Event → Bool
  | .sendNonBlocking _ _ _ _ => true
  | _ => false

def Event.isSetDone : Event → Bool
  | .setDone => true
  | _ => false

def Event.isSpawn : Event → Bool
  | .spawnTask => true
  | _ => false

/-- External collaborators and oracles (§6 of the spec): filesystem,
configuration, UUID generation, the module, thread spawning, the timer. -/
structure Env where
  spool_dir : String
  uuid : String
  dirExists : String → Bool
  mkdirOk : String → Bool
  writeOk : String → Bool
  execResult : Except String ActionOutcome
  spawnOk : Bool
  spawnErrMsg : String
  elapsed : Nat

/-- `FileUtils::writeToFile`: writes the whole file, throwing a
`file_error` on failure (per the comment on the `ResultsStorage`
constructor in the source). -/
def FileUtils.writeToFile (env : Env) (content path : String) :
    List Event × Except AgentError Unit :=
  if env.writeOk path then ([Event.writeFile path content], Except.ok ())
  else ([], Except.error (AgentError.fileError ("failed to write to " ++ path)))

/-- `wrapDebug`: collects the request's well-formed debug chunks (malformed
ones are only counted in a log warning in the source). -/
def wrapDebug (request : ActionRequest) : List Doc := request.debug

/-- `RequestProcessor::replyRPCError` (source lines 180-201); the
`connection_error` is caught and logged inside, so the function always
returns its single attempt event. -/
def replyRPCError (request : ActionRequest) (description : String) :
    List Event :=
  [Event.sendRPCError [request.sender] request.transactionId request.id
     description]

/-- `RequestProcessor::replyBlockingResponse` (source lines 203-222). -/
def replyBlockingResponse (request : ActionRequest) (results : Doc) :
    List Event :=
  [Event.sendBlocking [request.sender] request.transactionId results
     (wrapDebug request)]

/-- `RequestProcessor::replyNonBlockingResponse` (source lines 224-248);
debug is assumed already delivered via the provisional response. -/
def replyNonBlockingResponse (request : ActionRequest) (results : Doc)
    (job_id : String) : List Event :=
  [Event.sendNonBlocking [request.sender] request.transactionId job_id
     results]

/-- `RequestProcessor::replyProvisionalResponse` (source lines 250-276):
`success` is set to `error.empty()` and the error text is attached only
when present. -/
def replyProvisionalResponse (request : ActionRequest)
    (job_id error : String) : List Event :=
  [Event.sendProvisional [request.sender] request.transactionId job_id
     error.isEmpty (if error.isEmpty then none else some error)
     (wrapDebug request)]

/-- `ResultsStorage` (source lines 44-105): the per-job record with its
three artifact paths and the in-memory status document. -/
structure ResultsStorage where
  module : String
  action : String
  out_path : String
  err_path : String
  status_path : String
  action_status : Doc
  deriving DecidableEq, Repr

/-- The status document built by `ResultsStorage::initialize`
(source lines 89-99): module, action, status=running, duration="0 s",
input = serialized parameters or "none" when empty, set in that order. -/
def initStatusDoc (request : ActionRequest) : Doc :=
  ((((Doc.empty.set "module" request.module).set "action"
      request.action).set "status" "running").set "duration" "0 s").set
    "input" (if request.paramsTxt.isEmpty then "none" else request.paramsTxt)

/-- The `ResultsStorage` value as built by its constructor for a given
request and results directory (source lines 48-56). -/
def ResultsStorage.ofRequest (request : ActionRequest)
    (results_dir : String) : ResultsStorage :=
  { module := request.module
    action := request.action
    out_path := results_dir ++ "/stdout"
    err_path := results_dir ++ "/stderr"
    status_path := results_dir ++ "/status"
    action_status := initStatusDoc request }

/-- `ResultsStorage::initialize` as invoked by the constructor
(source lines 89-104): builds the initial status document, then writes an
empty stdout artifact, an empty stderr artifact, and the serialized status
document; the first failing write throws `file_error`. -/
def ResultsStorage.initRecord (env : Env) (request : ActionRequest)
    (results_dir : String) : List Event × Except AgentError ResultsStorage :=
  let rs0 := ResultsStorage.ofRequest request results_dir
  match FileUtils.writeToFile env "" rs0.out_path with
  | (e1, Except.error e) => (e1, Except.error e)
  | (e1, Except.ok _) =>
    match FileUtils.writeToFile env "" rs0.err_path with
    | (e2, Except.error e) => (e1 ++ e2, Except.error e)
    | (e2, Except.ok _) =>
      match FileUtils.writeToFile env (rs0.action_status.toString ++ "\n")
          rs0.status_path with
      | (e3, Except.error e) => (e1 ++ e2 ++ e3, Except.error e)
      | (e3, Except.ok _) => (e1 ++ e2 ++ e3, Except.ok rs0)

/-- The failure message `ResultsStorage::write` writes to the stderr
artifact when an execution error occurred (source lines 75-76). -/
def failureMessage (module action exec_error : String) : String :=
  "Failed to execute \x27" ++ module ++ " " ++ action ++ "\x27: "
    ++ exec_error ++ "\n"

/-- The status document after `ResultsStorage::write` has set
status=completed and the duration (source lines 60-61). -/
def finalStatusDoc (d : Doc) (duration : String) : Doc :=
  (d.set "status" "completed").set "duration" duration

/-- `ResultsStorage::write` (source lines 58-79): updates the in-memory
status document to completed with the given duration and rewrites the
status artifact; then, with no execution error, writes stdout (plus
newline) and — only when non-empty — stderr for external outcomes, or the
serialized results document for internal outcomes; with an execution
error, leaves the stdout artifact untouched and writes the formatted
failure message to the stderr artifact. -/
def ResultsStorage.write (env : Env) (rs : ResultsStorage)
    (outcome : ActionOutcome) (exec_error duration : String) :
    List Event × Except AgentError ResultsStorage :=
  let st := finalStatusDoc rs.action_status duration
  let rs1 : ResultsStorage := { rs with action_status := st }
  match FileUtils.writeToFile env (st.toString ++ "\n") rs.status_path with
  | (e1, Except.error e) => (e1, Except.error e)
  | (e1, Except.ok _) =>
    if exec_error.isEmpty then
      match outcome.type with
      | ActionOutcomeType.External =>
        match FileUtils.writeToFile env (outcome.stdout ++ "\n")
            rs.out_path with
        | (e2, Except.error e) => (e1 ++ e2, Except.error e)
        | (e2, Except.ok _) =>
          if outcome.stderr.isEmpty then (e1 ++ e2, Except.ok rs1)
          else
            match FileUtils.writeToFile env (outcome.stderr ++ "\n")
                rs.err_path with
            | (e3, Except.error e) => (e1 ++ e2 ++ e3, Except.error e)
            | (e3, Except.ok _) => (e1 ++ e2 ++ e3, Except.ok rs1)
      | ActionOutcomeType.Internal =>
        match FileUtils.writeToFile env (outcome.results.toString ++ "\n")
            rs.out_path with
        | (e2, Except.error e) => (e1 ++ e2, Except.error e)
        | (e2, Except.ok _) => (e1 ++ e2, Except.ok rs1)
    else
      match FileUtils.writeToFile env
          (failureMessage rs.module rs.action exec_error) rs.err_path with
      | (e2, Except.error e) => (e1 ++ e2, Except.error e)
      | (e2, Except.ok _) => (e1 ++ e2, Except.ok rs1)

/-- The try-block of `nonBlockingActionTask` (source lines 121-132):
its reply events, the recorded execution error (empty on success) and the
outcome to hand to the storage (the default-constructed one when the
module raised). -/
def taskStep (env : Env) (request : ActionRequest) (job_id : String) :
    List Event × String × ActionOutcome :=
  match env.execResult with
  | Except.ok oc =>
    if request.notifyOutcome then
      (replyNonBlockingResponse request oc.results job_id, "", oc)
    else ([], "", oc)
  | Except.error msg =>
    (replyRPCError request msg, msg, ActionOutcome.empty)

/-- `nonBlockingActionTask` (source lines 111-140), the body of the
per-job thread: executes the module; on success with the notify flag set
sends the non-blocking response, on a `request_error` records the message
and sends an RPC error; then finalizes the job record with the elapsed
duration and sets the shared completion flag.  The returned `Option
AgentError` is an exception escaping the thread function uncaught (in
which case no completion-flag event was emitted). -/
def nonBlockingActionTask (env : Env) (request : ActionRequest)
    (job_id : String) (rs : ResultsStorage) :
    List Event × Option AgentError :=
  let step := taskStep env request job_id
  let duration := toString env.elapsed ++ " s"
  let w := ResultsStorage.write env rs step.2.2 step.2.1 duration
  match w.2 with
  | Except.ok _ => (step.1 ++ w.1 ++ [Event.setDone], none)
  | Except.error e => (step.1 ++ w.1, some e)

/-- The outcome of one dispatch: the dispatch thread's events in order,
the spawned task's own run (events plus escaped exception) when a thread
was started, and an exception escaping the dispatch function uncaught. -/
structure DispatchResult where
  events : List Event
  task : Option (List Event × Option AgentError)
  err : Option AgentError
  deriving Repr

/-- `RequestProcessor::processBlockingRequest` (source lines 299-305):
executes the action synchronously, propagating request errors, and replies
with a blocking response. -/
def processBlockingRequest (env : Env) (request : ActionRequest) :
    List Event × Option AgentError :=
  match env.execResult with
  | Except.ok outcome => (replyBlockingResponse request outcome.results, none)
  | Except.error msg => ([], some (AgentError.requestError msg))

/-- `RequestProcessor::processNonBlockingRequest` (source lines 307-356):
computes the job directory `<spool-dir><job-id>`, creates it when absent
(throwing a `request_processing_error` on failure), initializes the job
record and spawns the action task — downgrading a `file_error` of the
record initialization or a spawn failure into an error message — and
finally sends the provisional response carrying that (possibly empty)
error message. -/
def processNonBlockingRequest (env : Env) (request : ActionRequest) :
    DispatchResult :=
  let job_id := env.uuid
  let results_dir := env.spool_dir ++ job_id
  let dirEvents : List Event :=
    if env.dirExists results_dir then [] else [Event.createDir results_dir]
  if env.dirExists results_dir = false ∧ env.mkdirOk results_dir = false then
    { events := []
      task := none
      err := some (AgentError.requestProcessingError
        ("failed to create directory \x27" ++ results_dir ++ "\x27")) }
  else
    match ResultsStorage.initRecord env request results_dir with
    | (initEvents, Except.error e) =>
      { events := dirEvents ++ initEvents ++
          replyProvisionalResponse request job_id
            ("failed to initialize result files: " ++ e.what)
        task := none
        err := none }
    | (initEvents, Except.ok rs) =>
      if env.spawnOk then
        { events := dirEvents ++ initEvents ++ [Event.spawnTask] ++
            replyProvisionalResponse request job_id ""
          task := some (nonBlockingActionTask env request job_id rs)
          err := none }
      else
        { events := dirEvents ++ initEvents ++
            replyProvisionalResponse request job_id
              ("failed to start action task: " ++ env.spawnErrMsg)
          task := none
          err := none }

/-- `RequestProcessor::processRequest` (source lines 278-293): routes by
request type and converts any escaping request-error-kind exception into a
single RPC error reply. -/
def processRequest (env : Env) (request : ActionRequest) : DispatchResult :=
  let r : DispatchResult :=
    match request.requestType with
    | RequestType.Blocking =>
      match processBlockingRequest env request with
      | (evs, err) => { events := evs, task := none, err := err }
    | RequestType.NonBlocking => processNonBlockingRequest env request
  match r.err with
  | some e =>
    if e.isRequestKind then
      { events := r.events ++ replyRPCError request e.what
        task := r.task
        err := none }
    else r
  | none => r

/-- An interleaving of two event sequences that preserves the order within
each. -/
inductive Interleave : List Event → List Event → List Event → Prop
  | nil : Interleave [] [] []
  | left : ∀ (x : Event) (xs ys zs : List Event),
      Interleave xs ys zs → Interleave (x :: xs) ys (x :: zs)
  | right : ∀ (y : Event) (xs ys zs : List Event),
      Interleave xs ys zs → Interleave xs (y :: ys) (y :: zs)

/-- The whole-program traces of a dispatch: when a task thread was
spawned, any interleaving of the dispatch events after the spawn with the
task's events (the thread starts running at the spawn and runs
concurrently with the rest of the dispatch path); otherwise just the
dispatch events. -/
def GlobalTrace (r : DispatchResult) (t : List Event) : Prop :=
  match r.task with
  | none => t = r.events
  | some (taskEvents, _) =>
    ∃ pre post mixed,
      r.events = pre ++ Event.spawnTask :: post ∧
      Interleave post taskEvents mixed ∧
      t = pre ++ Event.spawnTask :: mixed

/-! Concrete fixtures used by witnesses and counterexamples. -/

/-- A module outcome: external execution with stdout "X", empty stderr. -/
def sampleOutcome : ActionOutcome :=
  ActionOutcome.mk ActionOutcomeType.External "X" "" [("os", "linux")]

/-- An environment in which every external operation succeeds. -/
def allOkEnv : Env :=
  { spool_dir := "/spool/"
    uuid := "job-1"
    dirExists := fun _ => true
    mkdirOk := fun _ => true
    writeOk := fun _ => true
    execResult := Except.ok sampleOutcome
    spawnOk := true
    spawnErrMsg := ""
    elapsed := 0 }

/-- A non-blocking request without the notify flag. -/
def sampleRequest : ActionRequest :=
  { id := "rq-1"
    transactionId := "tx-1"
    sender := "client-1"
    module := "facts"
    action := "get"
    paramsTxt := ""
    requestType := RequestType.NonBlocking
    notifyOutcome := false
    debug := [] }

/-- The same request with `notify_outcome` set. -/
def notifyRequest : ActionRequest :=
  { sampleRequest with notifyOutcome := true }

/-- The same request dispatched as blocking. -/
def blockingRequest : ActionRequest :=
  { sampleRequest with requestType := RequestType.Blocking }

/-- An environment in which the job directory is absent and its creation
fails. -/
def dirFailEnv : Env :=
  { allOkEnv with dirExists := fun _ => false, mkdirOk := fun _ => false }

/-- An environment in which writing the status artifact fails — the
filesystem degrades between job-record initialization and finalization
(e.g. the spool directory is removed while the job runs). -/
def statusWriteFailEnv : Env :=
  { allOkEnv with writeOk := fun pa => !(pa == "/spool/job-1/status") }

/-- An environment in which the module raises a `request_error`. -/
def execFailEnv : Env :=
  { allOkEnv with execResult := Except.error "no such action" }

/-- The whole-program trace of `allOkEnv`/`sampleRequest` in which the
dispatch thread is scheduled first and the task runs only afterwards. -/
def seqTrace : List Event :=
  [Event.writeFile "/spool/job-1/stdout" "",
   Event.writeFile "/spool/job-1/stderr" "",
   Event.writeFile "/spool/job-1/status"
     "module: facts, action: get, status: running, duration: 0 s, input: none\n",
   Event.spawnTask,
   Event.sendProvisional ["client-1"] "tx-1" "job-1" true none []] ++
  (nonBlockingActionTask allOkEnv sampleRequest "job-1"
    (ResultsStorage.ofRequest sampleRequest "/spool/job-1")).1

/-- The whole-program trace of `allOkEnv`/`sampleRequest` in which the
spawned task runs to completion before the dispatch thread sends the
provisional response. -/
def doneFirstTrace : List Event :=
  [Event.writeFile "/spool/job-1/stdout" "",
   Event.writeFile "/spool/job-1/stderr" "",
   Event.writeFile "/spool/job-1/status"
     "module: facts, action: get, status: running, duration: 0 s, input: none\n",
   Event.spawnTask] ++
  (nonBlockingActionTask allOkEnv sampleRequest "job-1"
    (ResultsStorage.ofRequest sampleRequest "/spool/job-1")).1 ++
  [Event.sendProvisional ["client-1"] "tx-1" "job-1" true none []]

/-! Helper lemmas about documents, the storage operations and traces. -/

theorem Doc.get_set_self (d : Doc) (k v : String) :
    Doc.get? (Doc.set d k v) k = some v := by
  induction d with
  | nil => simp [Doc.set, Doc.get?]
  | cons p rest ih =>
    by_cases h : p.1 = k
    · simp [Doc.set, Doc.get?, h]
    · simp [Doc.set, Doc.get?, h, ih]

theorem Doc.get_set_ne (d : Doc) (k k' v : String) (h : k ≠ k') :
    Doc.get? (Doc.set d k v) k' = Doc.get? d k' := by
  induction d with
  | nil => simp [Doc.set, Doc.get?, h]
  | cons p rest ih =>
    by_cases hp : p.1 = k
    · subst hp
      simp [Doc.set, Doc.get?, h]
    · simp [Doc.set, Doc.get?, hp, ih]

theorem writeToFile_ok (env : Env) (content path : String)
    (h : env.writeOk path = true) :
    FileUtils.writeToFile env content path =
      ([Event.writeFile path content], Except.ok ()) := by
  simp [FileUtils.writeToFile, h]

theorem writeToFile_fail (env : Env) (content path : String)
    (h : env.writeOk path = false) :
    FileUtils.writeToFile env content path =
      ([], Except.error (AgentError.fileError
        ("failed to write to " ++ path))) := by
  simp [FileUtils.writeToFile, h]

/-- Every event a `writeToFile` call emits is a file write, so any
predicate false on file writes counts zero among them. -/
theorem writeToFile_countP (env : Env) (content path : String)
    (p : Event → Bool) (hp : ∀ pa c, p (Event.writeFile pa c) = false) :
    ((FileUtils.writeToFile env content path).1.countP p) = 0 := by
  by_cases h : env.writeOk path
  · simp [writeToFile_ok env content path h, List.countP_cons, hp]
  · simp [writeToFile_fail env content path (by simpa using h)]

/-- `ResultsStorage::initialize` only performs file writes. -/
theorem initialize_countP (env : Env) (request : ActionRequest)
    (results_dir : String) (p : Event → Bool)
    (hp : ∀ pa c, p (Event.writeFile pa c) = false) :
    ((ResultsStorage.initRecord env request results_dir).1.countP p) = 0 := by
  unfold ResultsStorage.initRecord
  by_cases h1 : env.writeOk (ResultsStorage.ofRequest request results_dir).out_path <;>
  by_cases h2 : env.writeOk (ResultsStorage.ofRequest request results_dir).err_path <;>
  by_cases h3 : env.writeOk (ResultsStorage.ofRequest request results_dir).status_path <;>
    simp [FileUtils.writeToFile, h1, h2, h3, List.countP_cons,
      List.countP_append, hp]

/-- `ResultsStorage::write` only performs file writes. -/
theorem write_countP (env : Env) (rs : ResultsStorage)
    (outcome : ActionOutcome) (exec_error duration : String)
    (p : Event → Bool) (hp : ∀ pa c, p (Event.writeFile pa c) = false) :
    ((ResultsStorage.write env rs outcome exec_error duration).1.countP p)
      = 0 := by
  unfold ResultsStorage.write
  by_cases h1 : env.writeOk rs.status_path <;>
  by_cases h2 : env.writeOk rs.out_path <;>
  by_cases h3 : env.writeOk rs.err_path <;>
  by_cases h4 : exec_error.isEmpty <;>
  cases ho : outcome.type <;>
  by_cases h5 : outcome.stderr.isEmpty <;>
    simp [FileUtils.writeToFile, h1, h2, h3, h4, h5, ho, List.countP_cons,
      List.countP_append, hp]

/-- When every file write succeeds, `ResultsStorage::write` performs
exactly the writes the source dictates and returns the storage with the
updated in-memory status document. -/
theorem write_ok (env : Env) (rs : ResultsStorage) (outcome : ActionOutcome)
    (exec_error duration : String) (hw : ∀ pa, env.writeOk pa = true) :
    ResultsStorage.write env rs outcome exec_error duration =
      (Event.writeFile rs.status_path
          ((finalStatusDoc rs.action_status duration).toString ++ "\n") ::
        (if exec_error.isEmpty then
          match outcome.type with
          | ActionOutcomeType.External =>
            Event.writeFile rs.out_path (outcome.stdout ++ "\n") ::
              (if outcome.stderr.isEmpty then []
               else [Event.writeFile rs.err_path (outcome.stderr ++ "\n")])
          | ActionOutcomeType.Internal =>
            [Event.writeFile rs.out_path (outcome.results.toString ++ "\n")]
         else
          [Event.writeFile rs.err_path
            (failureMessage rs.module rs.action exec_error)]),
       Except.ok { rs with
         action_status := finalStatusDoc rs.action_status duration }) := by
  unfold ResultsStorage.write
  by_cases h4 : exec_error.isEmpty <;>
  cases ho : outcome.type <;>
  by_cases h5 : outcome.stderr.isEmpty <;>
    simp [FileUtils.writeToFile, hw, h4, h5, ho]

/-- When every file write succeeds, `ResultsStorage::initialize` writes
the empty stdout artifact, the empty stderr artifact and the initial
status document, and returns the constructed storage. -/
theorem initialize_ok (env : Env) (request : ActionRequest)
    (results_dir : String) (hw : ∀ pa, env.writeOk pa = true) :
    ResultsStorage.initRecord env request results_dir =
      ([Event.writeFile (results_dir ++ "/stdout") "",
        Event.writeFile (results_dir ++ "/stderr") "",
        Event.writeFile (results_dir ++ "/status")
          ((initStatusDoc request).toString ++ "\n")],
       Except.ok (ResultsStorage.ofRequest request results_dir)) := by
  unfold ResultsStorage.initRecord
  simp [FileUtils.writeToFile, hw, ResultsStorage.ofRequest]

/-- Unfolding of the task when the storage finalization succeeds. -/
theorem task_eq_ok (env : Env) (request : ActionRequest) (job_id : String)
    (rs rsx : ResultsStorage)
    (h : (ResultsStorage.write env rs (taskStep env request job_id).2.2
        (taskStep env request job_id).2.1
        (toString env.elapsed ++ " s")).2 = Except.ok rsx) :
    nonBlockingActionTask env request job_id rs =
      ((taskStep env request job_id).1 ++
        (ResultsStorage.write env rs (taskStep env request job_id).2.2
          (taskStep env request job_id).2.1
          (toString env.elapsed ++ " s")).1 ++ [Event.setDone], none) := by
  unfold nonBlockingActionTask
  simp only []
  rw [h]

/-- Unfolding of the task when the storage finalization throws: the
escaping exception is returned and no completion-flag event occurs. -/
theorem task_eq_err (env : Env) (request : ActionRequest) (job_id : String)
    (rs : ResultsStorage) (e : AgentError)
    (h : (ResultsStorage.write env rs (taskStep env request job_id).2.2
        (taskStep env request job_id).2.1
        (toString env.elapsed ++ " s")).2 = Except.error e) :
    nonBlockingActionTask env request job_id rs =
      ((taskStep env request job_id).1 ++
        (ResultsStorage.write env rs (taskStep env request job_id).2.2
          (taskStep env request job_id).2.1
          (toString env.elapsed ++ " s")).1, some e) := by
  unfold nonBlockingActionTask
  simp only []
  rw [h]

/-- The reply events of the try-block never include a provisional
response. -/
theorem taskStep_countP_provisional (env : Env) (request : ActionRequest)
    (job_id : String) :
    ((taskStep env request job_id).1.countP Event.isProvisional) = 0 := by
  unfold taskStep
  cases env.execResult with
  | ok oc =>
    by_cases hn : request.notifyOutcome <;>
      simp [hn, replyNonBlockingResponse, List.countP_cons, Event.isProvisional]
  | error msg =>
    simp [replyRPCError, List.countP_cons, Event.isProvisional]

/-- The task never sends a provisional response: only the dispatch path
does. -/
theorem task_countP_provisional (env : Env) (request : ActionRequest)
    (job_id : String) (rs : ResultsStorage) :
    ((nonBlockingActionTask env request job_id rs).1.countP
      Event.isProvisional) = 0 := by
  have hstep := taskStep_countP_provisional env request job_id
  have hwz := write_countP env rs (taskStep env request job_id).2.2
    (taskStep env request job_id).2.1 (toString env.elapsed ++ " s")
    Event.isProvisional (by intro pa c; rfl)
  cases hres : (ResultsStorage.write env rs (taskStep env request job_id).2.2
      (taskStep env request job_id).2.1 (toString env.elapsed ++ " s")).2 with
  | ok rsx =>
    rw [task_eq_ok env request job_id rs rsx hres]
    simp [List.countP_append, List.countP_cons, hstep, hwz, Event.isProvisional]
  | error e =>
    rw [task_eq_err env request job_id rs e hres]
    simp [List.countP_append, hstep, hwz]

theorem Interleave.countP_add (p : Event → Bool) {xs ys zs : List Event}
    (h : Interleave xs ys zs) :
    zs.countP p = xs.countP p + ys.countP p := by
  induction h with
  | nil => simp
  | left x xs ys zs h ih => simp [List.countP_cons, ih]; omega
  | right y xs ys zs h ih => simp [List.countP_cons, ih]; omega

theorem Interleave.nil_left (ys : List Event) : Interleave [] ys ys := by
  induction ys with
  | nil => exact Interleave.nil
  | cons y ys ih => exact Interleave.right y [] ys ys ih

theorem Interleave.nil_right (xs : List Event) : Interleave xs [] xs := by
  induction xs with
  | nil => exact Interleave.nil
  | cons x xs ih => exact Interleave.left x xs [] xs ih

/-- The interleaving that schedules all of the first thread first. -/
theorem Interleave.append (xs ys : List Event) :
    Interleave xs ys (xs ++ ys) := by
  induction xs with
  | nil => simpa using Interleave.nil_left ys
  | cons x xs ih => exact Interleave.left x xs ys (xs ++ ys) ih

/-- The interleaving that schedules all of the second thread first. -/
theorem Interleave.append_swap (xs ys : List Event) :
    Interleave xs ys (ys ++ xs) := by
  induction ys with
  | nil => simpa using Interleave.nil_right xs
  | cons y ys ih => exact Interleave.right y xs ys (ys ++ xs) ih

/-- Counting events across any global trace: dispatch events plus task
events. -/
theorem GlobalTrace.countP_split {r : DispatchResult} {t : List Event}
    (p : Event → Bool) (h : GlobalTrace r t) :
    t.countP p = r.events.countP p +
      (match r.task with
       | none => 0
       | some (te, _) => te.countP p) := by
  unfold GlobalTrace at h
  cases htask : r.task with
  | none =>
    rw [htask] at h
    simp [h]
  | some tpair =>
    rw [htask] at h
    obtain ⟨te, terr⟩ := tpair
    obtain ⟨pre, post, mixed, hev, hint, ht⟩ := h
    have hm := Interleave.countP_add p hint
    subst ht
    rw [hev]
    simp only [List.countP_append, List.countP_cons, hm]
    cases hq : p Event.spawnTask <;> simp [hq] <;> omega

theorem finalStatusDoc_get_status (d : Doc) (duration : String) :
    (finalStatusDoc d duration).get? "status" = some "completed" := by
  unfold finalStatusDoc
  rw [Doc.get_set_ne _ _ _ _ (by decide), Doc.get_set_self]

theorem finalStatusDoc_get_duration (d : Doc) (duration : String) :
    (finalStatusDoc d duration).get? "duration" = some duration :=
  Doc.get_set_self _ _ _

/-- Fields other than `status` and `duration` are untouched by the
finalization update of the status document. -/
theorem finalStatusDoc_get_other (d : Doc) (duration k : String)
    (h1 : k ≠ "status") (h2 : k ≠ "duration") :
    (finalStatusDoc d duration).get? k = d.get? k := by
  unfold finalStatusDoc
  rw [Doc.get_set_ne _ _ _ _ (Ne.symm h2), Doc.get_set_ne _ _ _ _ (Ne.symm h1)]

/-- Whenever `ResultsStorage::write` returns normally, the storage it
yields is the input storage with only the in-memory status document
updated (status=completed plus the new duration). -/
theorem write_result_storage (env : Env) (rs : ResultsStorage)
    (outcome : ActionOutcome) (exec_error duration : String)
    (rsx : ResultsStorage)
    (h : (ResultsStorage.write env rs outcome exec_error duration).2 =
      Except.ok rsx) :
    rsx = { rs with
      action_status := finalStatusDoc rs.action_status duration } := by
  unfold ResultsStorage.write at h
  by_cases h1 : env.writeOk rs.status_path <;>
  by_cases h2 : env.writeOk rs.out_path <;>
  by_cases h3 : env.writeOk rs.err_path <;>
  by_cases h4 : exec_error.isEmpty <;>
  cases ho : outcome.type <;>
  by_cases h5 : outcome.stderr.isEmpty <;>
    simp_all [FileUtils.writeToFile]

/-- The task's trace is its try-block reply events followed by a tail of
file writes plus (at most) the completion-flag event. -/
theorem task_trace_decomp (env : Env) (request : ActionRequest)
    (job_id : String) (rs : ResultsStorage) :
    ∃ tail,
      (nonBlockingActionTask env request job_id rs).1 =
        (taskStep env request job_id).1 ++ tail ∧
      ∀ p : Event → Bool, (∀ pa c, p (Event.writeFile pa c) = false) →
        p Event.setDone = false → tail.countP p = 0 := by
  cases hres : (ResultsStorage.write env rs (taskStep env request job_id).2.2
      (taskStep env request job_id).2.1 (toString env.elapsed ++ " s")).2 with
  | ok rsx =>
    refine ⟨(ResultsStorage.write env rs (taskStep env request job_id).2.2
      (taskStep env request job_id).2.1 (toString env.elapsed ++ " s")).1 ++
        [Event.setDone], ?_, ?_⟩
    · rw [task_eq_ok env request job_id rs rsx hres]
      simp [List.append_assoc]
    · intro p hpw hpd
      have hz := write_countP env rs (taskStep env request job_id).2.2
        (taskStep env request job_id).2.1 (toString env.elapsed ++ " s") p hpw
      simp [List.countP_append, List.countP_cons, hz, hpd]
  | error e =>
    refine ⟨(ResultsStorage.write env rs (taskStep env request job_id).2.2
      (taskStep env request job_id).2.1 (toString env.elapsed ++ " s")).1,
      ?_, ?_⟩
    · rw [task_eq_err env request job_id rs e hres]
    · intro p hpw hpd
      exact write_countP env rs (taskStep env request job_id).2.2
        (taskStep env request job_id).2.1 (toString env.elapsed ++ " s") p hpw

/-- With the job directory present or creatable, the dispatch path of a
non-blocking request emits exactly one provisional response, lets no
exception escape, and any spawned task emits none. -/
theorem dispatch_one_provisional (env : Env) (request : ActionRequest)
    (hdir : env.dirExists (env.spool_dir ++ env.uuid) = true ∨
      env.mkdirOk (env.spool_dir ++ env.uuid) = true) :
    (processNonBlockingRequest env request).events.countP
      Event.isProvisional = 1 ∧
    (processNonBlockingRequest env request).err = none ∧
    ∀ te terr, (processNonBlockingRequest env request).task = some (te, terr) →
      te.countP Event.isProvisional = 0 := by
  have hcond : ¬(env.dirExists (env.spool_dir ++ env.uuid) = false ∧
      env.mkdirOk (env.spool_dir ++ env.uuid) = false) := by
    rcases hdir with h | h <;> simp [h]
  have hdirz : ((if env.dirExists (env.spool_dir ++ env.uuid) then
      ([] : List Event)
      else [Event.createDir (env.spool_dir ++ env.uuid)]).countP
        Event.isProvisional) = 0 := by
    by_cases h : env.dirExists (env.spool_dir ++ env.uuid) <;>
      simp [h, Event.isProvisional]
  have hinitz := initialize_countP env request (env.spool_dir ++ env.uuid)
    Event.isProvisional (by intro pa c; rfl)
  have htaskz := task_countP_provisional env request env.uuid
  unfold processNonBlockingRequest
  simp only []
  rw [if_neg hcond]
  cases hinit : ResultsStorage.initRecord env request
      (env.spool_dir ++ env.uuid) with
  | mk initEvents ir =>
    rw [hinit] at hinitz
    cases ir with
    | error e =>
      simp [List.countP_append, List.countP_cons, hdirz, hinitz,
        replyProvisionalResponse, Event.isProvisional]
    | ok rs =>
      by_cases hs : env.spawnOk
      · simp [hs, List.countP_append, List.countP_cons, hdirz, hinitz,
          replyProvisionalResponse, Event.isProvisional]
        intro te terr hte
        have h0 := htaskz rs
        rw [hte] at h0
        intro a ha
        have hz := List.countP_eq_zero.mp (by simpa using h0) a ha
        simpa [Event.isProvisional] using hz
      · simp [hs, List.countP_append, List.countP_cons, hdirz, hinitz,
          replyProvisionalResponse, Event.isProvisional]

/-! The claims. -/

/-- C4: finalize artifact contents.  With no execution error and an
external outcome, the stdout artifact receives the captured standard
output plus a trailing newline and the stderr artifact is written only
when the captured standard error is non-empty; with an internal outcome,
the stdout artifact receives the serialized structured result document;
with a non-empty execution error M for module foo action bar, the stdout
artifact is untouched (no write to it occurs) and the stderr artifact
receives exactly "Failed to execute 'foo bar': M" plus a newline. -/
theorem write_artifact_contents (env : Env) (rs : ResultsStorage)
    (outcome : ActionOutcome) (m dur : String)
    (hw : ∀ pa, env.writeOk pa = true) :
    (outcome.type = ActionOutcomeType.External →
      (ResultsStorage.write env rs outcome "" dur).1 =
        [Event.writeFile rs.status_path
            ((finalStatusDoc rs.action_status dur).toString ++ "\n"),
         Event.writeFile rs.out_path (outcome.stdout ++ "\n")] ++
        (if outcome.stderr.isEmpty then []
         else [Event.writeFile rs.err_path (outcome.stderr ++ "\n")])) ∧
    (outcome.type = ActionOutcomeType.Internal →
      (ResultsStorage.write env rs outcome "" dur).1 =
        [Event.writeFile rs.status_path
            ((finalStatusDoc rs.action_status dur).toString ++ "\n"),
         Event.writeFile rs.out_path (outcome.results.toString ++ "\n")]) ∧
    (m.isEmpty = false →
      (ResultsStorage.write env rs outcome m dur).1 =
        [Event.writeFile rs.status_path
            ((finalStatusDoc rs.action_status dur).toString ++ "\n"),
         Event.writeFile rs.err_path
           ("Failed to execute \x27" ++ rs.module ++ " " ++ rs.action
             ++ "\x27: " ++ m ++ "\n")]) := by
  refine ⟨?_, ?_, ?_⟩
  · intro ht
    rw [write_ok env rs outcome "" dur hw]
    simp [ht, show "".isEmpty = true from rfl]
  · intro ht
    rw [write_ok env rs outcome "" dur hw]
    simp [ht, show "".isEmpty = true from rfl]
  · intro hm
    rw [write_ok env rs outcome m dur hw]
    simp [hm, failureMessage]

/-- C4 witness: the error case at module "facts", action "get", error
"boom". -/
theorem write_artifact_contents_witness :
    ("boom".isEmpty = false) ∧
    (ResultsStorage.write allOkEnv
        (ResultsStorage.ofRequest sampleRequest "/spool/job-1")
        sampleOutcome "boom" "2 s").1 =
      [Event.writeFile "/spool/job-1/status"
         "module: facts, action: get, status: completed, duration: 2 s, input: none\n",
       Event.writeFile "/spool/job-1/stderr"
         "Failed to execute \x27facts get\x27: boom\n"] :=
  ⟨rfl,
   (write_artifact_contents allOkEnv
     (ResultsStorage.ofRequest sampleRequest "/spool/job-1")
     sampleOutcome "boom" "2 s" (fun _ => rfl)).2.2 rfl⟩

/-- C7: job-record lifecycle.  When every write succeeds, initialization
writes an empty stdout artifact, an empty stderr artifact and the status
document, whose fields read status="running", duration="0 s", the
request's module and action, and input = the serialized parameters or
"none" when they are empty; and every normally returning finalize leaves
an in-memory status document reading status="completed" with a duration
rendering the (non-negative, being a natural number) elapsed seconds. -/
theorem status_document_lifecycle (env : Env) (request : ActionRequest)
    (results_dir : String) (hw : ∀ pa, env.writeOk pa = true) :
    (ResultsStorage.initRecord env request results_dir).1 =
      [Event.writeFile (results_dir ++ "/stdout") "",
       Event.writeFile (results_dir ++ "/stderr") "",
       Event.writeFile (results_dir ++ "/status")
         ((initStatusDoc request).toString ++ "\n")] ∧
    (ResultsStorage.initRecord env request results_dir).2 =
      Except.ok (ResultsStorage.ofRequest request results_dir) ∧
    (initStatusDoc request).get? "status" = some "running" ∧
    (initStatusDoc request).get? "duration" = some "0 s" ∧
    (initStatusDoc request).get? "module" = some request.module ∧
    (initStatusDoc request).get? "action" = some request.action ∧
    (initStatusDoc request).get? "input" =
      some (if request.paramsTxt.isEmpty then "none"
            else request.paramsTxt) ∧
    (∀ (rs rsx : ResultsStorage) (outcome : ActionOutcome)
        (exec_error : String) (n : Nat),
      (ResultsStorage.write env rs outcome exec_error
          (toString n ++ " s")).2 = Except.ok rsx →
      rsx.action_status.get? "status" = some "completed" ∧
      rsx.action_status.get? "duration" = some (toString n ++ " s")) := by
  have hini := initialize_ok env request results_dir hw
  refine ⟨?_, ?_, ?_, ?_, ?_, ?_, ?_, ?_⟩
  · rw [hini]
  · rw [hini]
  · unfold initStatusDoc
    rw [Doc.get_set_ne _ _ _ _ (by decide),
      Doc.get_set_ne _ _ _ _ (by decide), Doc.get_set_self]
  · unfold initStatusDoc
    rw [Doc.get_set_ne _ _ _ _ (by decide), Doc.get_set_self]
  · unfold initStatusDoc
    rw [Doc.get_set_ne _ _ _ _ (by decide),
      Doc.get_set_ne _ _ _ _ (by decide),
      Doc.get_set_ne _ _ _ _ (by decide),
      Doc.get_set_ne _ _ _ _ (by decide), Doc.get_set_self]
  · unfold initStatusDoc
    rw [Doc.get_set_ne _ _ _ _ (by decide),
      Doc.get_set_ne _ _ _ _ (by decide),
      Doc.get_set_ne _ _ _ _ (by decide), Doc.get_set_self]
  · unfold initStatusDoc
    rw [Doc.get_set_self]
  · intro rs rsx outcome exec_error n h
    have hst := write_result_storage env rs outcome exec_error
      (toString n ++ " s") rsx h
    rw [hst]
    exact ⟨finalStatusDoc_get_status _ _, finalStatusDoc_get_duration _ _⟩

/-- C7 witness: the concrete request at the all-success environment. -/
theorem status_document_lifecycle_witness :
    (initStatusDoc sampleRequest).get? "status" = some "running" ∧
    (initStatusDoc sampleRequest).get? "duration" = some "0 s" ∧
    (ResultsStorage.initRecord allOkEnv sampleRequest "/spool/job-1").2 =
      Except.ok (ResultsStorage.ofRequest sampleRequest "/spool/job-1") :=
  ⟨(status_document_lifecycle allOkEnv sampleRequest "/spool/job-1"
      (fun _ => rfl)).2.2.1,
   (status_document_lifecycle allOkEnv sampleRequest "/spool/job-1"
      (fun _ => rfl)).2.2.2.1,
   (status_document_lifecycle allOkEnv sampleRequest "/spool/job-1"
      (fun _ => rfl)).2.1⟩

/-- C9: every normally returning finalize yields a storage whose status
document is the document built at initialization mutated in place at the
"status" and "duration" keys only: module, action and input read exactly
as initialized, and all identity fields and paths are unchanged. -/
theorem finalize_preserves_identity_fields (env : Env)
    (rs : ResultsStorage) (outcome : ActionOutcome)
    (exec_error duration : String) (rsx : ResultsStorage)
    (h : (ResultsStorage.write env rs outcome exec_error duration).2 =
      Except.ok rsx) :
    rsx.action_status =
      (rs.action_status.set "status" "completed").set "duration" duration ∧
    rsx.action_status.get? "module" = rs.action_status.get? "module" ∧
    rsx.action_status.get? "action" = rs.action_status.get? "action" ∧
    rsx.action_status.get? "input" = rs.action_status.get? "input" ∧
    rsx.action_status.get? "status" = some "completed" ∧
    rsx.action_status.get? "duration" = some duration ∧
    rsx.module = rs.module ∧ rsx.action = rs.action ∧
    rsx.out_path = rs.out_path ∧ rsx.err_path = rs.err_path ∧
    rsx.status_path = rs.status_path := by
  have hst := write_result_storage env rs outcome exec_error duration rsx h
  rw [hst]
  refine ⟨rfl, ?_, ?_, ?_, ?_, ?_, rfl, rfl, rfl, rfl, rfl⟩
  · exact finalStatusDoc_get_other _ _ _ (by decide) (by decide)
  · exact finalStatusDoc_get_other _ _ _ (by decide) (by decide)
  · exact finalStatusDoc_get_other _ _ _ (by decide) (by decide)
  · exact finalStatusDoc_get_status _ _
  · exact finalStatusDoc_get_duration _ _

/-- C9 witness: a concrete finalize of the sample job record. -/
theorem finalize_preserves_identity_fields_witness :
    (ResultsStorage.write allOkEnv
        (ResultsStorage.ofRequest sampleRequest "/spool/job-1")
        sampleOutcome "" "1 s").2 =
      Except.ok (ResultsStorage.mk "facts" "get" "/spool/job-1/stdout"
        "/spool/job-1/stderr" "/spool/job-1/status"
        [("module", "facts"), ("action", "get"), ("status", "completed"),
         ("duration", "1 s"), ("input", "none")]) ∧
    (ResultsStorage.mk "facts" "get" "/spool/job-1/stdout"
        "/spool/job-1/stderr" "/spool/job-1/status"
        [("module", "facts"), ("action", "get"), ("status", "completed"),
         ("duration", "1 s"), ("input", "none")]).action_status.get?
      "module" =
      (ResultsStorage.ofRequest sampleRequest
        "/spool/job-1").action_status.get? "module" :=
  ⟨rfl,
   (finalize_preserves_identity_fields allOkEnv
     (ResultsStorage.ofRequest sampleRequest "/spool/job-1")
     sampleOutcome "" "1 s" _ rfl).2.1⟩

/-- C10: on a successful non-blocking task with the notify flag set, the
non-blocking (completion) response is the task's very first event,
strictly before the status-artifact rewrite that finalizes the job
record: at the moment the completion reply is attempted, the on-disk
status document still reads status="running". -/
theorem completion_reply_before_finalize (env : Env)
    (request : ActionRequest) (job_id : String) (rs : ResultsStorage)
    (oc : ActionOutcome)
    (hex : env.execResult = Except.ok oc)
    (hn : request.notifyOutcome = true)
    (hw : ∀ pa, env.writeOk pa = true) :
    (nonBlockingActionTask env request job_id rs).1 =
      Event.sendNonBlocking [request.sender] request.transactionId job_id
          oc.results ::
        Event.writeFile rs.status_path
          ((finalStatusDoc rs.action_status
            (toString env.elapsed ++ " s")).toString ++ "\n") ::
        ((match oc.type with
          | ActionOutcomeType.External =>
            Event.writeFile rs.out_path (oc.stdout ++ "\n") ::
              (if oc.stderr.isEmpty then []
               else [Event.writeFile rs.err_path (oc.stderr ++ "\n")])
          | ActionOutcomeType.Internal =>
            [Event.writeFile rs.out_path (oc.results.toString ++ "\n")]) ++
          [Event.setDone]) := by
  have hstep : taskStep env request job_id =
      (replyNonBlockingResponse request oc.results job_id, "", oc) := by
    unfold taskStep
    rw [hex]
    simp [hn]
  have hwrok := write_ok env rs oc "" (toString env.elapsed ++ " s") hw
  have h2 : (ResultsStorage.write env rs (taskStep env request job_id).2.2
      (taskStep env request job_id).2.1 (toString env.elapsed ++ " s")).2 =
      Except.ok { rs with
        action_status := finalStatusDoc rs.action_status
          (toString env.elapsed ++ " s") } := by
    rw [hstep]
    simp only []
    rw [hwrok]
  rw [task_eq_ok env request job_id rs _ h2, hstep]
  simp only []
  rw [hwrok]
  simp [replyNonBlockingResponse, show "".isEmpty = true from rfl]

/-- C10 witness: the notify request at the all-success environment. -/
theorem completion_reply_before_finalize_witness :
    (nonBlockingActionTask allOkEnv notifyRequest "job-1"
      (ResultsStorage.ofRequest notifyRequest "/spool/job-1")).1 =
      Event.sendNonBlocking ["client-1"] "tx-1" "job-1" [("os", "linux")] ::
        Event.writeFile "/spool/job-1/status"
          ((finalStatusDoc
            (ResultsStorage.ofRequest notifyRequest
              "/spool/job-1").action_status "0 s").toString ++ "\n") ::
        ((match sampleOutcome.type with
          | ActionOutcomeType.External =>
            Event.writeFile "/spool/job-1/stdout" "X\n" ::
              (if sampleOutcome.stderr.isEmpty then []
               else [Event.writeFile "/spool/job-1/stderr"
                 (sampleOutcome.stderr ++ "\n")])
          | ActionOutcomeType.Internal =>
            [Event.writeFile "/spool/job-1/stdout"
              (sampleOutcome.results.toString ++ "\n")]) ++
          [Event.setDone]) :=
  completion_reply_before_finalize allOkEnv notifyRequest "job-1"
    (ResultsStorage.ofRequest notifyRequest "/spool/job-1")
    sampleOutcome rfl rfl (fun _ => rfl)

/-- C8: a blocking request produces exactly one reply attempt, addressed
only to the request's sender — the blocking response with the transaction
id and the results document on success, or the RPC error with the
description on a request error — with no file or directory event and no
task spawned. -/
theorem blocking_single_reply_no_files (env : Env)
    (request : ActionRequest)
    (hty : request.requestType = RequestType.Blocking) :
    (∀ oc, env.execResult = Except.ok oc →
      processRequest env request =
        { events := [Event.sendBlocking [request.sender]
            request.transactionId oc.results (wrapDebug request)]
          task := none
          err := none }) ∧
    (∀ m, env.execResult = Except.error m →
      processRequest env request =
        { events := [Event.sendRPCError [request.sender]
            request.transactionId request.id m]
          task := none
          err := none }) := by
  constructor
  · intro oc hex
    unfold processRequest processBlockingRequest
    rw [hty, hex]
    simp [replyBlockingResponse]
  · intro m hex
    unfold processRequest processBlockingRequest
    rw [hty, hex]
    simp [replyRPCError, AgentError.isRequestKind, AgentError.what]

/-- C8 witness: the successful blocking request. -/
theorem blocking_single_reply_no_files_witness :
    processRequest allOkEnv blockingRequest =
      { events := [Event.sendBlocking ["client-1"] "tx-1"
          [("os", "linux")] []]
        task := none
        err := none } :=
  (blocking_single_reply_no_files allOkEnv blockingRequest rfl).1
    sampleOutcome rfl

/-- C5: a non-blocking request whose job-directory creation fails raises
a request-processing error before any other event (in particular before
any provisional reply and before any task spawn), which the top-level
handler of processRequest converts into exactly one RPC error reply; the
job never starts. -/
theorem dir_failure_single_rpc_error (env : Env)
    (request : ActionRequest)
    (hty : request.requestType = RequestType.NonBlocking)
    (hex : env.dirExists (env.spool_dir ++ env.uuid) = false)
    (hmk : env.mkdirOk (env.spool_dir ++ env.uuid) = false) :
    processNonBlockingRequest env request =
      { events := []
        task := none
        err := some (AgentError.requestProcessingError
          ("failed to create directory \x27" ++ (env.spool_dir ++ env.uuid)
            ++ "\x27")) } ∧
    processRequest env request =
      { events := [Event.sendRPCError [request.sender]
          request.transactionId request.id
          ("failed to create directory \x27" ++ (env.spool_dir ++ env.uuid)
            ++ "\x27")]
        task := none
        err := none } := by
  have h1 : processNonBlockingRequest env request =
      { events := []
        task := none
        err := some (AgentError.requestProcessingError
          ("failed to create directory \x27" ++ (env.spool_dir ++ env.uuid)
            ++ "\x27")) } := by
    unfold processNonBlockingRequest
    simp [hex, hmk]
  refine ⟨h1, ?_⟩
  unfold processRequest
  rw [hty]
  simp [h1, AgentError.isRequestKind, AgentError.what, replyRPCError]

/-- C5 witness: the failing-directory environment. -/
theorem dir_failure_single_rpc_error_witness :
    processRequest dirFailEnv sampleRequest =
      { events := [Event.sendRPCError ["client-1"] "tx-1" "rq-1"
          "failed to create directory \x27/spool/job-1\x27"]
        task := none
        err := none } :=
  (dir_failure_single_rpc_error dirFailEnv sampleRequest rfl rfl rfl).2

/-- C6: in the non-blocking task, a module request-error produces exactly
one RPC error reply addressed to the original sender and no non-blocking
response (regardless of the notify flag); a non-blocking response —
carrying the job identifier and the result document — occurs exactly when
execution succeeded and the notify flag is set. -/
theorem task_reply_discipline (env : Env) (request : ActionRequest)
    (job_id : String) (rs : ResultsStorage) :
    (∀ m, env.execResult = Except.error m →
      ((nonBlockingActionTask env request job_id rs).1.countP
          Event.isRPCError = 1 ∧
       Event.sendRPCError [request.sender] request.transactionId request.id
           m ∈ (nonBlockingActionTask env request job_id rs).1 ∧
       (nonBlockingActionTask env request job_id rs).1.countP
          Event.isNonBlockingResp = 0)) ∧
    (∀ oc, env.execResult = Except.ok oc →
      ((nonBlockingActionTask env request job_id rs).1.countP
          Event.isRPCError = 0 ∧
       (nonBlockingActionTask env request job_id rs).1.countP
          Event.isNonBlockingResp =
         (if request.notifyOutcome then 1 else 0) ∧
       (request.notifyOutcome = true →
         Event.sendNonBlocking [request.sender] request.transactionId
             job_id oc.results ∈
           (nonBlockingActionTask env request job_id rs).1))) := by
  obtain ⟨tail, hdec, htail⟩ := task_trace_decomp env request job_id rs
  have htail_rpc := htail Event.isRPCError (by intro pa c; rfl) rfl
  have htail_nb := htail Event.isNonBlockingResp (by intro pa c; rfl) rfl
  constructor
  · intro m hex
    have hstep : (taskStep env request job_id).1 =
        [Event.sendRPCError [request.sender] request.transactionId
          request.id m] := by
      unfold taskStep
      rw [hex]
      simp [replyRPCError]
    rw [hdec, hstep]
    refine ⟨?_, ?_, ?_⟩
    · simp [List.countP_append, List.countP_cons, htail_rpc,
        Event.isRPCError]
    · simp
    · simp [List.countP_append, List.countP_cons, htail_nb,
        Event.isNonBlockingResp]
  · intro oc hex
    have hstep : (taskStep env request job_id).1 =
        (if request.notifyOutcome then
          [Event.sendNonBlocking [request.sender] request.transactionId
            job_id oc.results]
         else []) := by
      unfold taskStep
      rw [hex]
      by_cases hn : request.notifyOutcome <;>
        simp [hn, replyNonBlockingResponse]
    rw [hdec, hstep]
    by_cases hn : request.notifyOutcome <;>
      simp [hn, List.countP_append, List.countP_cons, htail_rpc, htail_nb,
        Event.isRPCError, Event.isNonBlockingResp]

/-- C6 witness: the failing-module environment with the notify flag set,
and the successful notify case. -/
theorem task_reply_discipline_witness :
    ((nonBlockingActionTask execFailEnv notifyRequest "job-1"
        (ResultsStorage.ofRequest notifyRequest "/spool/job-1")).1.countP
      Event.isNonBlockingResp = 0) ∧
    ((nonBlockingActionTask allOkEnv notifyRequest "job-1"
        (ResultsStorage.ofRequest notifyRequest "/spool/job-1")).1.countP
      Event.isNonBlockingResp = 1) := by
  constructor
  · exact ((task_reply_discipline execFailEnv notifyRequest "job-1"
      (ResultsStorage.ofRequest notifyRequest "/spool/job-1")).1
        "no such action" rfl).2.2
  · have h := ((task_reply_discipline allOkEnv notifyRequest "job-1"
      (ResultsStorage.ofRequest notifyRequest "/spool/job-1")).2
        sampleOutcome rfl).2.1
    simpa using h

/-- C2 (code bug in the source): a task whose job-record finalization
raises — here, the status-artifact write fails because the filesystem
degraded after initialization — lets the `file_error` escape
`nonBlockingActionTask` without ever setting the shared completion flag:
the trace contains no completion-flag event, contradicting the documented
guarantee that the flag is set on exit of every code path. -/
theorem finalize_failure_skips_done_flag :
    nonBlockingActionTask statusWriteFailEnv notifyRequest "job-1"
        (ResultsStorage.ofRequest notifyRequest "/spool/job-1") =
      ([Event.sendNonBlocking ["client-1"] "tx-1" "job-1"
          [("os", "linux")]],
       some (AgentError.fileError
         "failed to write to /spool/job-1/status")) ∧
    ((nonBlockingActionTask statusWriteFailEnv notifyRequest "job-1"
        (ResultsStorage.ofRequest notifyRequest "/spool/job-1")).1.countP
      Event.isSetDone = 0) := by
  exact ⟨rfl, rfl⟩

/-- C1 (amended): for every non-blocking request whose job directory
exists or is created successfully, every whole-program trace contains
exactly one provisional reply attempt — whether the task spawn succeeds
or fails.  The reply is sent synchronously from the dispatch path, but it
is not ordered before the concurrently running task's completion, and a
request whose directory creation fails gets an RPC error instead (see the
counterexample). -/
theorem nonblocking_exactly_one_provisional (env : Env)
    (request : ActionRequest)
    (hty : request.requestType = RequestType.NonBlocking)
    (hdir : env.dirExists (env.spool_dir ++ env.uuid) = true ∨
      env.mkdirOk (env.spool_dir ++ env.uuid) = true)
    (t : List Event)
    (ht : GlobalTrace (processRequest env request) t) :
    t.countP Event.isProvisional = 1 := by
  obtain ⟨h1, h2, h3⟩ := dispatch_one_provisional env request hdir
  have hpr : processRequest env request =
      processNonBlockingRequest env request := by
    unfold processRequest
    rw [hty]
    simp [h2]
  rw [hpr] at ht
  have hc := GlobalTrace.countP_split Event.isProvisional ht
  cases htask : (processNonBlockingRequest env request).task with
  | none =>
    rw [htask] at hc
    simpa [h1] using hc
  | some tp =>
    obtain ⟨te, terr⟩ := tp
    rw [htask] at hc
    simp only [h1, h3 te terr htask] at hc
    simpa using hc

/-- C1 witness: the sequentially scheduled whole-program trace of the
all-success run carries exactly one provisional reply. -/
theorem nonblocking_exactly_one_provisional_witness :
    GlobalTrace (processRequest allOkEnv sampleRequest) seqTrace ∧
    seqTrace.countP Event.isProvisional = 1 := by
  have hgt : GlobalTrace (processRequest allOkEnv sampleRequest)
      seqTrace := by
    exact ⟨[Event.writeFile "/spool/job-1/stdout" "",
            Event.writeFile "/spool/job-1/stderr" "",
            Event.writeFile "/spool/job-1/status"
              "module: facts, action: get, status: running, duration: 0 s, input: none\n"],
           [Event.sendProvisional ["client-1"] "tx-1" "job-1" true none []],
           [Event.sendProvisional ["client-1"] "tx-1" "job-1" true none
             []] ++
             (nonBlockingActionTask allOkEnv sampleRequest "job-1"
               (ResultsStorage.ofRequest sampleRequest "/spool/job-1")).1,
           rfl,
           Interleave.append _ _,
           rfl⟩
  exact ⟨hgt, nonblocking_exactly_one_provisional allOkEnv sampleRequest
    rfl (Or.inl rfl) seqTrace hgt⟩

/-- C1 counterexample: (a) a non-blocking request whose job-directory
creation fails produces no provisional reply at all (an RPC error reply
is sent instead); (b) in the all-success run the done-first trace is a
valid whole-program trace in which the task's completion-flag event
(index 6) precedes the provisional reply (index 7), so the provisional
reply is not sent before task completion. -/
theorem provisional_reply_ordering_refuted :
    ((processRequest dirFailEnv sampleRequest).events.countP
      Event.isProvisional = 0) ∧
    GlobalTrace (processRequest allOkEnv sampleRequest) doneFirstTrace ∧
    doneFirstTrace.get? 6 = some Event.setDone ∧
    doneFirstTrace.get? 7 =
      some (Event.sendProvisional ["client-1"] "tx-1" "job-1" true none
        []) := by
  refine ⟨rfl, ?_, rfl, rfl⟩
  exact ⟨[Event.writeFile "/spool/job-1/stdout" "",
          Event.writeFile "/spool/job-1/stderr" "",
          Event.writeFile "/spool/job-1/status"
            "module: facts, action: get, status: running, duration: 0 s, input: none\n"],
         [Event.sendProvisional ["client-1"] "tx-1" "job-1" true none []],
         (nonBlockingActionTask allOkEnv sampleRequest "job-1"
           (ResultsStorage.ofRequest sampleRequest "/spool/job-1")).1 ++
           [Event.sendProvisional ["client-1"] "tx-1" "job-1" true none
             []],
         rfl,
         Interleave.append_swap _ _,
         rfl⟩

/-- C3 (amended): for every non-blocking request that spawns its task
(directory available, record initialization and spawn succeeding), the
dispatch path's events end with the task spawn immediately followed by
the provisional reply: the provisional reply is sent synchronously from
the dispatch path but strictly after task spawn, and no earlier dispatch
event is a provisional reply or a spawn.  The status-document transition
to completed happens in the concurrently running task and is not ordered
with respect to the provisional reply (see the counterexample). -/
theorem provisional_synchronous_after_spawn (env : Env)
    (request : ActionRequest)
    (hty : request.requestType = RequestType.NonBlocking)
    (hdir : env.dirExists (env.spool_dir ++ env.uuid) = true ∨
      env.mkdirOk (env.spool_dir ++ env.uuid) = true)
    (hw : ∀ pa, env.writeOk pa = true)
    (hs : env.spawnOk = true) :
    ∃ pre,
      (processRequest env request).events =
        pre ++ [Event.spawnTask,
          Event.sendProvisional [request.sender] request.transactionId
            env.uuid true none (wrapDebug request)] ∧
      pre.countP Event.isProvisional = 0 ∧
      pre.countP Event.isSpawn = 0 := by
  obtain ⟨h1, h2, h3⟩ := dispatch_one_provisional env request hdir
  have hpr : processRequest env request =
      processNonBlockingRequest env request := by
    unfold processRequest
    rw [hty]
    simp [h2]
  rw [hpr]
  have hcond : ¬(env.dirExists (env.spool_dir ++ env.uuid) = false ∧
      env.mkdirOk (env.spool_dir ++ env.uuid) = false) := by
    rcases hdir with h | h <;> simp [h]
  unfold processNonBlockingRequest
  simp only []
  rw [if_neg hcond,
    initialize_ok env request (env.spool_dir ++ env.uuid) hw]
  simp only [hs, if_true]
  refine ⟨(if env.dirExists (env.spool_dir ++ env.uuid) then
      ([] : List Event)
      else [Event.createDir (env.spool_dir ++ env.uuid)]) ++
    [Event.writeFile ((env.spool_dir ++ env.uuid) ++ "/stdout") "",
     Event.writeFile ((env.spool_dir ++ env.uuid) ++ "/stderr") "",
     Event.writeFile ((env.spool_dir ++ env.uuid) ++ "/status")
       ((initStatusDoc request).toString ++ "\n")], ?_, ?_, ?_⟩
  · simp [replyProvisionalResponse, show "".isEmpty = true from rfl,
      List.append_assoc]
  · by_cases h : env.dirExists (env.spool_dir ++ env.uuid) <;>
      simp [h, List.countP_append, List.countP_cons, Event.isProvisional]
  · by_cases h : env.dirExists (env.spool_dir ++ env.uuid) <;>
      simp [h, List.countP_append, List.countP_cons, Event.isSpawn]

/-- C3 witness: the all-success run. -/
theorem provisional_synchronous_after_spawn_witness :
    ∃ pre,
      (processRequest allOkEnv sampleRequest).events =
        pre ++ [Event.spawnTask,
          Event.sendProvisional ["client-1"] "tx-1" "job-1" true none
            []] ∧
      pre.countP Event.isProvisional = 0 ∧
      pre.countP Event.isSpawn = 0 :=
  provisional_synchronous_after_spawn allOkEnv sampleRequest rfl
    (Or.inl rfl) (fun _ => rfl) rfl

/-- C3 counterexample: in the dispatch path of the all-success run the
task spawn (index 3) strictly precedes the provisional reply (index 4,
with no earlier provisional), so the provisional reply is not observable
by task spawn; and the done-first trace is a valid whole-program trace in
which the write of the completed status document (index 4) precedes the
provisional reply (index 7), so the running-to-completed transition is
not strictly after the provisional reply attempt. -/
theorem provisional_before_spawn_refuted :
    ((processRequest allOkEnv sampleRequest).events.get? 3 =
       some Event.spawnTask ∧
     (processRequest allOkEnv sampleRequest).events.get? 4 =
       some (Event.sendProvisional ["client-1"] "tx-1" "job-1" true none
         []) ∧
     (((processRequest allOkEnv sampleRequest).events.take 4).countP
       Event.isProvisional = 0)) ∧
    (GlobalTrace (processRequest allOkEnv sampleRequest) doneFirstTrace ∧
     doneFirstTrace.get? 4 = some (Event.writeFile "/spool/job-1/status"
       "module: facts, action: get, status: completed, duration: 0 s, input: none\n") ∧
     ((doneFirstTrace.take 7).countP Event.isProvisional = 0) ∧
     doneFirstTrace.get? 7 =
       some (Event.sendProvisional ["client-1"] "tx-1" "job-1" true none
         [])) := by
  refine ⟨⟨rfl, rfl, rfl⟩, ?_, rfl, rfl, rfl⟩
  exact ⟨[Event.writeFile "/spool/job-1/stdout" "",
          Event.writeFile "/spool/job-1/stderr" "",
          Event.writeFile "/spool/job-1/status"
            "module: facts, action: get, status: running, duration: 0 s, input: none\n"],
         [Event.sendProvisional ["client-1"] "tx-1" "job-1" true none []],
         (nonBlockingActionTask allOkEnv sampleRequest "job-1"
           (ResultsStorage.ofRequest sampleRequest "/spool/job-1")).1 ++
           [Event.sendProvisional ["client-1"] "tx-1" "job-1" true none
             []],
         rfl,
         Interleave.append_swap _ _,
         rfl⟩

end CthunAgent
